import Mathlib

/-!
Verification of the device-discovery core of pkg/mount/mount.go
(cloudstack-csi-driver): the identifier translator `diskUUIDToSerial`,
the device resolver `GetDevicePath` with its bounded backoff loop, the
per-attempt lookup `getDevicePathBySerialID`, and the best-effort rescan
trigger `probeVolume`.

Strings are modelled as Lean `String` (lists of characters); Go's byte
indexing coincides with character indexing on the identifiers involved.
The filesystem stat, the context cancellation signal and the rescan
side effects are external capabilities, modelled as explicit oracle
parameters.
-/

namespace CloudstackMount

/-- The hyphen-stripping step of `diskUUIDToSerial`: Go's
`strings.ReplaceAll(uuid, "-", "")`, which removes every hyphen
character from the string. -/
def stripHyphens (s : String) : String :=
  ⟨s.data.filter (fun c => decide (c ≠ '-'))⟩

/-- `diskUUIDToSerial` from pkg/mount/mount.go: strip all hyphens; if the
result has fewer than 20 characters return it unchanged, otherwise
return its first 20 characters (Go `uuidWithoutHyphen[:20]`). -/
def diskUUIDToSerial (uuid : String) : String :=
  let uuidWithoutHyphen := stripHyphens uuid
  if uuidWithoutHyphen.length < 20 then uuidWithoutHyphen
  else ⟨uuidWithoutHyphen.data.take 20⟩

theorem stripHyphens_data (s : String) :
    (stripHyphens s).data = s.data.filter (fun c => decide (c ≠ '-')) := rfl

theorem stripHyphens_length_le (s : String) :
    (stripHyphens s).length ≤ s.length :=
  List.length_filter_le _ _

theorem mem_stripHyphens_ne (s : String) {c : Char}
    (h : c ∈ (stripHyphens s).data) : c ≠ '-' := by
  rw [stripHyphens_data] at h
  have := List.of_mem_filter h
  simpa using this

theorem stripHyphens_of_no_hyphen (s : String) (h : '-' ∉ s.data) :
    stripHyphens s = s := by
  cases s with
  | mk data =>
    apply congrArg String.mk
    apply List.filter_eq_self.mpr
    intro a ha
    simp only [decide_eq_true_eq]
    intro heq
    exact h (heq ▸ ha)

theorem diskUUIDToSerial_eq_ite (s : String) :
    diskUUIDToSerial s =
      if (stripHyphens s).length < 20 then stripHyphens s
      else ⟨(stripHyphens s).data.take 20⟩ := rfl

theorem diskUUIDToSerial_length_le (s : String) :
    (diskUUIDToSerial s).length ≤ 20 := by
  rw [diskUUIDToSerial_eq_ite]
  split
  · omega
  · show ((stripHyphens s).data.take 20).length ≤ 20
    simp [List.length_take]

theorem diskUUIDToSerial_no_hyphen (s : String) :
    '-' ∉ (diskUUIDToSerial s).data := by
  intro hmem
  rw [diskUUIDToSerial_eq_ite] at hmem
  split at hmem
  · exact mem_stripHyphens_ne s hmem rfl
  · exact mem_stripHyphens_ne s (List.take_subset 20 _ hmem) rfl

theorem diskUUIDToSerial_short (s : String)
    (h : (stripHyphens s).length < 20) :
    diskUUIDToSerial s = stripHyphens s := by
  rw [diskUUIDToSerial_eq_ite]
  simp [h]

theorem diskUUIDToSerial_long (s : String)
    (h : 20 ≤ (stripHyphens s).length) :
    diskUUIDToSerial s = ⟨(stripHyphens s).data.take 20⟩ := by
  rw [diskUUIDToSerial_eq_ite]
  simp [Nat.not_lt.mpr h]

/-- C1: for every input string, `diskUUIDToSerial` returns a string of
length at most 20 containing no hyphen; when the hyphen-stripped input
has fewer than 20 characters the result is exactly the hyphen-stripped
input, and otherwise it is the first 20 characters of the
hyphen-stripped input. -/
theorem diskUUIDToSerial_spec (s : String) :
    ((diskUUIDToSerial s).length ≤ 20 ∧ '-' ∉ (diskUUIDToSerial s).data) ∧
    ((stripHyphens s).length < 20 → diskUUIDToSerial s = stripHyphens s) ∧
    (20 ≤ (stripHyphens s).length →
      diskUUIDToSerial s = ⟨(stripHyphens s).data.take 20⟩) :=
  ⟨⟨diskUUIDToSerial_length_le s, diskUUIDToSerial_no_hyphen s⟩,
   diskUUIDToSerial_short s, diskUUIDToSerial_long s⟩

/-- Witness for C1 at the spec's short example: `"abcd-ef"` strips to
`"abcdef"`, which has fewer than 20 characters and is returned
unchanged. -/
theorem diskUUIDToSerial_spec_witness :
    diskUUIDToSerial "abcd-ef" = stripHyphens "abcd-ef" :=
  (diskUUIDToSerial_spec "abcd-ef").2.1 (by decide)

/-- C9 counterexample: on the input `"1234-5678-9abc-def0-1111"` the
hyphen-stripped string `"123456789abcdef01111"` has 20 characters, not
21, and the translator does not return the 19-character string
`"123456789abcdef0111"` claimed. -/
theorem diskUUIDToSerial_example_refuted :
    (stripHyphens "1234-5678-9abc-def0-1111").length ≠ 21 ∧
    diskUUIDToSerial "1234-5678-9abc-def0-1111" ≠ "123456789abcdef0111" := by
  refine ⟨?_, ?_⟩ <;> decide

/-- C9 amended: on the input `"1234-5678-9abc-def0-1111"` the translator
strips hyphens to obtain `"123456789abcdef01111"`, a string of exactly
20 characters, and since taking its first 20 characters leaves it
unchanged the result is the full string `"123456789abcdef01111"`. -/
theorem diskUUIDToSerial_example :
    stripHyphens "1234-5678-9abc-def0-1111" = "123456789abcdef01111" ∧
    (stripHyphens "1234-5678-9abc-def0-1111").length = 20 ∧
    diskUUIDToSerial "1234-5678-9abc-def0-1111" = "123456789abcdef01111" ∧
    (diskUUIDToSerial "1234-5678-9abc-def0-1111").length = 20 := by
  refine ⟨?_, ?_, ?_, ?_⟩ <;> decide

/-- C10: the translator is idempotent, since its output already contains
no hyphen and has length at most 20. -/
theorem diskUUIDToSerial_idem (s : String) :
    diskUUIDToSerial (diskUUIDToSerial s) = diskUUIDToSerial s := by
  have hstrip : stripHyphens (diskUUIDToSerial s) = diskUUIDToSerial s :=
    stripHyphens_of_no_hyphen _ (diskUUIDToSerial_no_hyphen s)
  have hlen := diskUUIDToSerial_length_le s
  rcases Nat.lt_or_ge (diskUUIDToSerial s).length 20 with hlt | hge
  · rw [diskUUIDToSerial_short _ (by rw [hstrip]; exact hlt), hstrip]
  · have h20 : (diskUUIDToSerial s).length = 20 := Nat.le_antisymm hlen hge
    rw [diskUUIDToSerial_long _ (by rw [hstrip]; omega), hstrip]
    cases hval : diskUUIDToSerial s with
    | mk data =>
      apply congrArg String.mk
      have : data.length = 20 := by
        have := h20
        rw [hval] at this
        exact this
      simp [List.take_of_length_le, this.le]

/-- Result of the external filesystem stat capability (`os.Stat`) on one
path: success (the path exists), an error satisfying `os.IsNotExist`, or
any other error (permissions, I/O). -/
inductive StatResult
  | ok
  | notExist
  | otherError
deriving DecidableEq

/-- `diskIDPath` from pkg/mount/mount.go. -/
def diskIDPath : String := "/dev/disk/by-id"

/-- Go `filepath.Join(diskIDPath, name)` for the arguments built here: a
fixed absolute root without trailing separator and a nonempty leaf name,
for which Join reduces to inserting a single separator. -/
def filepathJoin (dir name : String) : String := dir ++ "/" ++ name

/-- `sourcePathPrefixes` from `getDevicePathBySerialID`, in source
order. -/
def sourcePathPrefixes : List String :=
  ["virtio-", "scsi-", "scsi-0QEMU_QEMU_HARDDISK_"]

/-- A candidate device path: the device-by-id root joined with
a naming-convention path piece followed by the serial. -/
def candidate (pfx serial : String) : String :=
  filepathJoin diskIDPath (pfx ++ serial)

/-- Outcome of one `getDevicePathBySerialID` call, matching its Go
return values: `found p` is `(p, nil)`, `notFound` is `("", nil)`, and
`statError` is `("", err)` for a non-`IsNotExist` stat error. -/
inductive LookupResult
  | found (path : String)
  | notFound
  | statError
deriving DecidableEq

/-- The loop over `sourcePathPrefixes` inside `getDevicePathBySerialID`:
stat each candidate in order; return the first whose stat succeeds;
continue past `IsNotExist` errors; abort with the error on any other
stat failure. -/
def lookupBySerial (stat : String → StatResult) (serial : String) :
    List String → LookupResult
  | [] => .notFound
  | pfx :: rest =>
    match stat (candidate pfx serial) with
    | .ok => .found (candidate pfx serial)
    | .notExist => lookupBySerial stat serial rest
    | .otherError => .statError

/-- `getDevicePathBySerialID` from pkg/mount/mount.go, with the stat
capability passed explicitly. -/
def getDevicePathBySerialID (stat : String → StatResult)
    (volumeID : String) : LookupResult :=
  lookupBySerial stat (diskUUIDToSerial volumeID) sourcePathPrefixes

/-- `scsiPath` from `probeVolume`. -/
def scsiPath : String := "/sys/class/scsi_host/"

/-- The rescan payload written to each scan control file. -/
def scanPayload : String := "- - -"

/-- External capabilities consumed by one `probeVolume` call: the
outcome of `os.ReadDir` on the SCSI host directory, the outcome of each
`os.WriteFile` (by path and payload), and the outcome of running
`udevadm trigger` (combined output or error). -/
structure ProbeEnv where
  readDir : Except Unit (List String)
  writeFile : String → String → Except Unit Unit
  udevadm : Except Unit String

/-- The write loop of `probeVolume`: for each directory entry, write the
rescan payload to its scan file; a failed write is logged and the loop
continues. Returns the error-log lines. -/
def probeScanWrites (wf : String → String → Except Unit Unit) :
    List String → List String
  | [] => []
  | f :: rest =>
    match wf (scsiPath ++ f ++ "/scan") scanPayload with
    | .ok _ => probeScanWrites wf rest
    | .error _ =>
      ("Failed to rescan scsi host " ++ scsiPath ++ f ++ "/scan") ::
        probeScanWrites wf rest

/-- `probeVolume` from pkg/mount/mount.go: best-effort rescan. Every
failure (directory read, individual scan-file write, `udevadm trigger`)
is only logged; the function always returns normally, producing the log
lines it emitted. -/
def probeVolume (env : ProbeEnv) : List String :=
  (match env.readDir with
   | .ok dirs => probeScanWrites env.writeFile dirs
   | .error _ => ["Failed to read dir " ++ scsiPath]) ++
  (match env.udevadm with
   | .ok _ => []
   | .error _ => ["Error running udevadm trigger"])

/-- Error classes a `GetDevicePath` call can surface, per the source's
`fmt.Errorf` messages. `hardError` stands for returning the underlying
stat error itself as the failure value; it is included to state claims
about error propagation. -/
inductive ErrClass
  | notFoundTimeout
  | emptyPath
  | hardError
deriving DecidableEq

/-- Observable cost of a resolution call: number of condition
invocations (lookup attempts), of `probeVolume` invocations, of backoff
sleeps, and the accumulated log lines. -/
structure Trace where
  conds : Nat
  probes : Nat
  sleeps : Nat
  logs : List String
deriving DecidableEq

/-- Result of `wait.ExponentialBackoffWithContext` as used in
`GetDevicePath`: the condition returned true having set `devicePath`
(`ok`), the condition returned an error (`condErr`), the context was
cancelled (`ctxCancelled`, i.e. `ctx.Err()`), or the step budget ran out
(`timeout`, i.e. `ErrWaitTimeout`). -/
inductive LoopResult
  | ok (path : String)
  | condErr
  | ctxCancelled
  | timeout
deriving DecidableEq

/-- `wait.ExponentialBackoffWithContext` (k8s.io/apimachinery) applied
to the condition closure of `GetDevicePath`, indexed by attempt number:
while steps remain, observe the cancellation signal, then run one
lookup; a found path ends the loop successfully and a stat error ends
it with that error; otherwise trigger `probeVolume` and, unless this
was the last step, sleep one backoff step and retry. Cancellation
during the sleep is observed at the next iteration's cancellation
check, which yields the same result and lookup count. `stat i` and
`done i` are the filesystem and cancellation state seen at attempt `i`;
`fuel` is the remaining step budget. -/
def backoffLoop (stat : Nat → String → StatResult) (done : Nat → Bool)
    (env : Nat → ProbeEnv) (volumeID : String) :
    Nat → Nat → LoopResult × Trace
  | 0, _ => (.timeout, ⟨0, 0, 0, []⟩)
  | fuel + 1, i =>
    if done i then (.ctxCancelled, ⟨0, 0, 0, []⟩)
    else
      match getDevicePathBySerialID (stat i) volumeID with
      | .statError => (.condErr, ⟨1, 0, 0, []⟩)
      | .found p => (.ok p, ⟨1, 0, 0, []⟩)
      | .notFound =>
        let logs := probeVolume (env i)
        if fuel = 0 then (.timeout, ⟨1, 1, 0, logs⟩)
        else
          let rest := backoffLoop stat done env volumeID fuel (i + 1)
          (rest.1, ⟨rest.2.conds + 1, rest.2.probes + 1,
            rest.2.sleeps + 1, logs ++ rest.2.logs⟩)

/-- The `Steps` field of the backoff policy in `GetDevicePath`. -/
def backoffSteps : Nat := 15

/-- `GetDevicePath` from pkg/mount/mount.go: run the backoff loop, then
map its result to the Go return values. `wait.Interrupted` errors
(`ErrWaitTimeout`, cancellation, deadline) become the "failed to find
device ... within the alloted time" failure; otherwise an empty
`devicePath` — which covers a condition error, since the condition only
sets `devicePath` on success — becomes the "device path was empty"
failure; otherwise the path is returned with no error. -/
def GetDevicePath (stat : Nat → String → StatResult) (done : Nat → Bool)
    (env : Nat → ProbeEnv) (volumeID : String) :
    (String × Option ErrClass) × Trace :=
  match backoffLoop stat done env volumeID backoffSteps 0 with
  | (.ok p, t) => if p = "" then (("", some .emptyPath), t)
                  else ((p, none), t)
  | (.condErr, t) => (("", some .emptyPath), t)
  | (.ctxCancelled, t) => (("", some .notFoundTimeout), t)
  | (.timeout, t) => (("", some .notFoundTimeout), t)

/-! Concrete oracles used to exercise the resolver on closed inputs. -/

/-- A filesystem on which every stat fails with a non-`IsNotExist`
error, e.g. permission denied on the device directory. -/
def allOtherErrorStat : Nat → String → StatResult := fun _ _ => .otherError

/-- A filesystem on which every stat succeeds. -/
def allOkStat : Nat → String → StatResult := fun _ _ => .ok

/-- A filesystem on which no candidate ever exists. -/
def allNotExistStat : Nat → String → StatResult := fun _ _ => .notExist

/-- A context that is never cancelled. -/
def neverDone : Nat → Bool := fun _ => false

/-- A probe environment in which every rescan side effect succeeds. -/
def quietProbeEnv : Nat → ProbeEnv :=
  fun _ => ⟨.ok [], fun _ _ => .ok (), .ok ""⟩

/-- A probe environment in which every rescan side effect fails. -/
def noisyProbeEnv : Nat → ProbeEnv :=
  fun _ => ⟨.error (), fun _ _ => .error (), .error ()⟩

/-! The backoff loop, step by step. -/

theorem backoffLoop_zero (stat : Nat → String → StatResult)
    (done : Nat → Bool) (env : Nat → ProbeEnv) (vid : String) (i : Nat) :
    backoffLoop stat done env vid 0 i = (.timeout, ⟨0, 0, 0, []⟩) := rfl

theorem backoffLoop_succ (stat : Nat → String → StatResult)
    (done : Nat → Bool) (env : Nat → ProbeEnv) (vid : String)
    (fuel i : Nat) :
    backoffLoop stat done env vid (fuel + 1) i =
      if done i then (.ctxCancelled, ⟨0, 0, 0, []⟩)
      else
        match getDevicePathBySerialID (stat i) vid with
        | .statError => (.condErr, ⟨1, 0, 0, []⟩)
        | .found p => (.ok p, ⟨1, 0, 0, []⟩)
        | .notFound =>
          if fuel = 0 then (.timeout, ⟨1, 1, 0, probeVolume (env i)⟩)
          else
            (((backoffLoop stat done env vid fuel (i + 1)).1,
              ⟨(backoffLoop stat done env vid fuel (i + 1)).2.conds + 1,
               (backoffLoop stat done env vid fuel (i + 1)).2.probes + 1,
               (backoffLoop stat done env vid fuel (i + 1)).2.sleeps + 1,
               probeVolume (env i) ++
                 (backoffLoop stat done env vid fuel (i + 1)).2.logs⟩)) := rfl

theorem backoffLoop_found (stat : Nat → String → StatResult)
    (done : Nat → Bool) (env : Nat → ProbeEnv) (vid : String)
    (fuel i : Nat) (p : String)
    (hd : done i = false)
    (hf : getDevicePathBySerialID (stat i) vid = .found p) :
    backoffLoop stat done env vid (fuel + 1) i = (.ok p, ⟨1, 0, 0, []⟩) := by
  rw [backoffLoop_succ, hd, hf]
  simp

/-- If `k` attempts see no candidate and no cancellation, and attempt
`k` (still within the step budget) hits a non-`IsNotExist` stat error,
the loop stops right there with the condition error: `k + 1` lookups,
`k` rescans, `k` sleeps. -/
theorem backoffLoop_statError (stat : Nat → String → StatResult)
    (done : Nat → Bool) (env : Nat → ProbeEnv) (vid : String) :
    ∀ fuel i k, k < fuel →
      (∀ j, j < k → done (i + j) = false ∧
        getDevicePathBySerialID (stat (i + j)) vid = .notFound) →
      done (i + k) = false →
      getDevicePathBySerialID (stat (i + k)) vid = .statError →
      (backoffLoop stat done env vid fuel i).1 = .condErr ∧
      (backoffLoop stat done env vid fuel i).2.conds = k + 1 ∧
      (backoffLoop stat done env vid fuel i).2.probes = k ∧
      (backoffLoop stat done env vid fuel i).2.sleeps = k := by
  intro fuel
  induction fuel with
  | zero => intro i k hk; omega
  | succ fuel ih =>
    intro i k hk hj hd hs
    cases k with
    | zero =>
      simp only [Nat.add_zero] at hd hs
      rw [backoffLoop_succ, hd, hs]
      simp
    | succ k =>
      have h0 := hj 0 (Nat.succ_pos k)
      rw [Nat.add_zero] at h0
      have hfuel : fuel ≠ 0 := by omega
      rw [backoffLoop_succ, h0.1, h0.2]
      simp only [Bool.false_eq_true, if_false, hfuel, if_neg hfuel]
      have ih' := ih (i + 1) k (by omega)
        (fun j hjk => by
          have := hj (j + 1) (by omega)
          rwa [show i + (j + 1) = i + 1 + j by omega] at this)
        (by rwa [show i + 1 + k = i + (k + 1) by omega])
        (by rwa [show i + 1 + k = i + (k + 1) by omega])
      exact ⟨ih'.1, by omega, by omega, by omega⟩

/-- C2 counterexample: with a filesystem on which the very first stat
fails with a permission-style (non-`IsNotExist`) error, `GetDevicePath`
does abort at once, but the failure value it returns is the generic
"device path was empty" error — not the underlying stat error the claim
says is propagated to the caller. -/
theorem getDevicePath_statError_counterexample :
    (GetDevicePath allOtherErrorStat neverDone quietProbeEnv "vol").1 =
      ("", some .emptyPath) ∧
    (GetDevicePath allOtherErrorStat neverDone quietProbeEnv "vol").1.2 ≠
      some .hardError ∧
    (GetDevicePath allOtherErrorStat neverDone quietProbeEnv "vol").2.conds
      = 1 := by
  refine ⟨?_, ?_, ?_⟩ <;> decide

/-- C2 amended: a stat failure other than non-existence at attempt `k`
(after `k` uneventful attempts, within the 15-step budget) aborts the
whole resolution immediately — exactly `k + 1` lookups, no further
retries — but the error surfaced to the caller is the "device path was
empty" error, because `GetDevicePath` only distinguishes interrupted
errors from an empty path and so swallows the underlying stat error. -/
theorem getDevicePath_statError_aborts (stat : Nat → String → StatResult)
    (done : Nat → Bool) (env : Nat → ProbeEnv) (vid : String) (k : Nat)
    (hk : k < backoffSteps)
    (hj : ∀ j, j < k → done j = false ∧
      getDevicePathBySerialID (stat j) vid = .notFound)
    (hd : done k = false)
    (hs : getDevicePathBySerialID (stat k) vid = .statError) :
    (GetDevicePath stat done env vid).1 = ("", some .emptyPath) ∧
    (GetDevicePath stat done env vid).1.2 ≠ some .hardError ∧
    (GetDevicePath stat done env vid).2.conds = k + 1 ∧
    (GetDevicePath stat done env vid).2.probes = k ∧
    (GetDevicePath stat done env vid).2.sleeps = k := by
  have hloop := backoffLoop_statError stat done env vid backoffSteps 0 k hk
    (fun j hjk => by simpa using hj j hjk)
    (by simpa using hd) (by simpa using hs)
  unfold GetDevicePath
  rcases hpair : backoffLoop stat done env vid backoffSteps 0 with ⟨r, t⟩
  rw [hpair] at hloop
  simp only at hloop
  obtain ⟨hr, hc, hp, hsl⟩ := hloop
  subst hr
  exact ⟨rfl, by simp, hc, hp, hsl⟩

/-- Witness for the amended C2 at `k = 0` on a concrete permission-denied
filesystem. -/
theorem getDevicePath_statError_aborts_witness :
    (GetDevicePath allOtherErrorStat neverDone quietProbeEnv "v").1 =
      ("", some .emptyPath) ∧
    (GetDevicePath allOtherErrorStat neverDone quietProbeEnv "v").1.2 ≠
      some .hardError ∧
    (GetDevicePath allOtherErrorStat neverDone quietProbeEnv "v").2.conds
      = 0 + 1 ∧
    (GetDevicePath allOtherErrorStat neverDone quietProbeEnv "v").2.probes
      = 0 ∧
    (GetDevicePath allOtherErrorStat neverDone quietProbeEnv "v").2.sleeps
      = 0 :=
  getDevicePath_statError_aborts allOtherErrorStat neverDone quietProbeEnv
    "v" 0 (by decide) (fun j hj => absurd hj (Nat.not_lt_zero j))
    rfl (by decide)

theorem candidate_ne_empty (pfx s : String) : candidate pfx s ≠ "" := by
  intro h
  have hlen : (candidate pfx s).length = 0 := by rw [h]; rfl
  simp [candidate, filepathJoin, diskIDPath, String.length_append] at hlen
  exact absurd hlen.1 (by decide)

/-- A found lookup result is always one of the prefixed candidates, and
its stat succeeded. -/
theorem lookupBySerial_found {stat : String → StatResult} {serial : String}
    {l : List String} {p : String}
    (h : lookupBySerial stat serial l = .found p) :
    ∃ pfx ∈ l, p = candidate pfx serial ∧ stat p = .ok := by
  induction l with
  | nil => simp [lookupBySerial] at h
  | cons hd tl ih =>
    rw [lookupBySerial] at h
    cases hstat : stat (candidate hd serial) with
    | ok =>
      rw [hstat] at h
      have hp : candidate hd serial = p := by
        cases h
        rfl
      exact ⟨hd, List.mem_cons_self hd tl, hp.symm, hp ▸ hstat⟩
    | notExist =>
      rw [hstat] at h
      obtain ⟨pfx, hm, hp, hok⟩ := ih h
      exact ⟨pfx, List.mem_cons_of_mem hd hm, hp, hok⟩
    | otherError =>
      rw [hstat] at h
      cases h

/-- A successful loop exit comes from a successful lookup at some
attempt inside the budget. -/
theorem backoffLoop_ok {stat : Nat → String → StatResult}
    {done : Nat → Bool} {env : Nat → ProbeEnv} {vid : String} :
    ∀ {fuel i p}, (backoffLoop stat done env vid fuel i).1 = .ok p →
      ∃ j, i ≤ j ∧ j < i + fuel ∧
        getDevicePathBySerialID (stat j) vid = .found p := by
  intro fuel
  induction fuel with
  | zero => intro i p h; rw [backoffLoop_zero] at h; cases h
  | succ fuel ih =>
    intro i p h
    rw [backoffLoop_succ] at h
    by_cases hd : done i
    · rw [if_pos hd] at h; cases h
    · rw [if_neg hd] at h
      cases hlk : getDevicePathBySerialID (stat i) vid with
      | found q =>
        rw [hlk] at h
        have hq : q = p := by cases h; rfl
        exact ⟨i, Nat.le_refl i, by omega, hq ▸ hlk⟩
      | statError => rw [hlk] at h; cases h
      | notFound =>
        rw [hlk] at h
        by_cases hf : fuel = 0
        · rw [if_pos hf] at h; cases h
        · rw [if_neg hf] at h
          simp only at h
          obtain ⟨j, hj1, hj2, hj3⟩ := ih h
          exact ⟨j, by omega, by omega, hj3⟩

/-- C3: whenever `GetDevicePath` returns without error, the returned
path is the device-by-id root joined with `pfx ++ serial` for one of
the three recognized path pieces with `serial = diskUUIDToSerial
volumeID`, and that exact path passed its existence check (`stat`
succeeded on it) at some attempt within the budget — a path that failed
or skipped the check is never returned. -/
theorem getDevicePath_success_verified (stat : Nat → String → StatResult)
    (done : Nat → Bool) (env : Nat → ProbeEnv) (vid p : String)
    (h : (GetDevicePath stat done env vid).1 = (p, none)) :
    ∃ pfx ∈ sourcePathPrefixes,
      p = candidate pfx (diskUUIDToSerial vid) ∧
      ∃ j, j < backoffSteps ∧ stat j p = .ok := by
  unfold GetDevicePath at h
  rcases hpair : backoffLoop stat done env vid backoffSteps 0 with ⟨r, t⟩
  rw [hpair] at h
  cases r with
  | ok q =>
    simp only at h
    by_cases hq : q = ""
    · rw [if_pos hq] at h
      cases h
    · rw [if_neg hq] at h
      have h' : (q, (none : Option ErrClass)) = (p, none) := h
      injection h' with hqp hnone
      subst hqp
      have hr1 : (backoffLoop stat done env vid backoffSteps 0).1 = .ok q := by
        rw [hpair]
      obtain ⟨j, _, hj2, hj3⟩ := backoffLoop_ok hr1
      obtain ⟨pfx, hm, hp, hok⟩ := lookupBySerial_found hj3
      exact ⟨pfx, hm, hp, j, by omega, hok⟩
  | condErr => cases h
  | ctxCancelled => cases h
  | timeout => cases h

/-- Witness for C3: on a filesystem where every path exists, resolution
succeeds with the first candidate and the conclusion holds for it. -/
theorem getDevicePath_success_verified_witness :
    ∃ pfx ∈ sourcePathPrefixes,
      candidate "virtio-" (diskUUIDToSerial "vol") =
        candidate pfx (diskUUIDToSerial "vol") ∧
      ∃ j, j < backoffSteps ∧
        allOkStat j (candidate "virtio-" (diskUUIDToSerial "vol")) = .ok :=
  getDevicePath_success_verified allOkStat neverDone quietProbeEnv "vol"
    (candidate "virtio-" (diskUUIDToSerial "vol")) (by decide)

/-- If no lookup ever finds a path or errors, the loop can only end by
cancellation or by running out of steps. -/
theorem backoffLoop_neverFound {stat : Nat → String → StatResult}
    {done : Nat → Bool} {env : Nat → ProbeEnv} {vid : String}
    (h : ∀ i, getDevicePathBySerialID (stat i) vid = .notFound) :
    ∀ fuel i, (backoffLoop stat done env vid fuel i).1 = .timeout ∨
      (backoffLoop stat done env vid fuel i).1 = .ctxCancelled := by
  intro fuel
  induction fuel with
  | zero => intro i; left; rw [backoffLoop_zero]
  | succ fuel ih =>
    intro i
    rw [backoffLoop_succ]
    by_cases hd : done i
    · right; rw [if_pos hd]
    · rw [if_neg hd, h i]
      by_cases hf : fuel = 0
      · left; rw [if_pos hf]
      · rw [if_neg hf]
        simpa using ih (i + 1)

/-- C4: when no candidate path ever exists, `GetDevicePath` returns the
empty path with the single "not found within the allotted time" error,
for every cancellation behavior of the context — exhaustion of the
15-step schedule and context cancellation surface as the same result. -/
theorem getDevicePath_notFound_timeout (stat : Nat → String → StatResult)
    (done : Nat → Bool) (env : Nat → ProbeEnv) (vid : String)
    (h : ∀ i, getDevicePathBySerialID (stat i) vid = .notFound) :
    (GetDevicePath stat done env vid).1 = ("", some .notFoundTimeout) := by
  unfold GetDevicePath
  rcases hpair : backoffLoop stat done env vid backoffSteps 0 with ⟨r, t⟩
  have hr := @backoffLoop_neverFound stat done env vid h backoffSteps 0
  rw [hpair] at hr
  simp only at hr
  rcases hr with hr | hr <;> subst hr <;> rfl

/-- Witness for C4: a filesystem on which nothing ever exists, probed
both under a never-cancelled context (exhaustion) and under a context
cancelled from the start, gives the same timeout-class result. -/
theorem getDevicePath_notFound_timeout_witness :
    (GetDevicePath allNotExistStat neverDone quietProbeEnv "vol").1 =
      ("", some .notFoundTimeout) ∧
    (GetDevicePath allNotExistStat (fun _ => true) quietProbeEnv "vol").1 =
      ("", some .notFoundTimeout) :=
  ⟨getDevicePath_notFound_timeout allNotExistStat neverDone quietProbeEnv
      "vol" (fun _ => rfl),
   getDevicePath_notFound_timeout allNotExistStat (fun _ => true)
      quietProbeEnv "vol" (fun _ => rfl)⟩

theorem lookup_priority_cases (stat : String → StatResult) (vid : String) :
    (stat (candidate "virtio-" (diskUUIDToSerial vid)) = .ok →
      getDevicePathBySerialID stat vid =
        .found (candidate "virtio-" (diskUUIDToSerial vid))) ∧
    (stat (candidate "virtio-" (diskUUIDToSerial vid)) = .notExist →
      stat (candidate "scsi-" (diskUUIDToSerial vid)) = .ok →
      getDevicePathBySerialID stat vid =
        .found (candidate "scsi-" (diskUUIDToSerial vid))) ∧
    (stat (candidate "virtio-" (diskUUIDToSerial vid)) = .notExist →
      stat (candidate "scsi-" (diskUUIDToSerial vid)) = .notExist →
      stat (candidate "scsi-0QEMU_QEMU_HARDDISK_" (diskUUIDToSerial vid))
        = .ok →
      getDevicePathBySerialID stat vid =
        .found (candidate "scsi-0QEMU_QEMU_HARDDISK_"
          (diskUUIDToSerial vid))) := by
  unfold getDevicePathBySerialID sourcePathPrefixes
  refine ⟨fun h0 => ?_, fun h0 h1 => ?_, fun h0 h1 h2 => ?_⟩ <;>
    simp [lookupBySerial, *]

/-- C5: priority among simultaneously existing candidates. The lookup
returns the virtio candidate whenever its stat succeeds (regardless of
the others), the scsi candidate when virtio is absent and scsi's stat
succeeds, and the QEMU-emulated candidate only when both earlier ones
are absent — so when two or more candidates exist, the one earlier in
`sourcePathPrefixes` wins. -/
theorem lookup_priority (stat : String → StatResult) (vid : String) :
    (stat (candidate "virtio-" (diskUUIDToSerial vid)) = .ok →
      getDevicePathBySerialID stat vid =
        .found (candidate "virtio-" (diskUUIDToSerial vid))) ∧
    (stat (candidate "virtio-" (diskUUIDToSerial vid)) = .notExist →
      stat (candidate "scsi-" (diskUUIDToSerial vid)) = .ok →
      getDevicePathBySerialID stat vid =
        .found (candidate "scsi-" (diskUUIDToSerial vid))) ∧
    (stat (candidate "virtio-" (diskUUIDToSerial vid)) = .notExist →
      stat (candidate "scsi-" (diskUUIDToSerial vid)) = .notExist →
      stat (candidate "scsi-0QEMU_QEMU_HARDDISK_" (diskUUIDToSerial vid))
        = .ok →
      getDevicePathBySerialID stat vid =
        .found (candidate "scsi-0QEMU_QEMU_HARDDISK_"
          (diskUUIDToSerial vid))) :=
  lookup_priority_cases stat vid

/-- Witness for C5: when all three candidates exist simultaneously, the
virtio one — first in the priority list — is returned. -/
theorem lookup_priority_witness :
    getDevicePathBySerialID (fun _ => .ok) "vol" =
      .found (candidate "virtio-" (diskUUIDToSerial "vol")) :=
  (lookup_priority (fun _ => .ok) "vol").1 rfl

theorem backoffLoop_trace_le (stat : Nat → String → StatResult)
    (done : Nat → Bool) (env : Nat → ProbeEnv) (vid : String) :
    ∀ fuel i, (backoffLoop stat done env vid fuel i).2.conds ≤ fuel ∧
      (backoffLoop stat done env vid fuel i).2.probes ≤ fuel ∧
      (backoffLoop stat done env vid fuel i).2.sleeps ≤ fuel - 1 := by
  intro fuel
  induction fuel with
  | zero =>
    intro i
    rw [backoffLoop_zero]
    refine ⟨?_, ?_, ?_⟩ <;> simp
  | succ fuel ih =>
    intro i
    rw [backoffLoop_succ]
    by_cases hd : done i
    · rw [if_pos hd]
      refine ⟨?_, ?_, ?_⟩ <;> simp
    · rw [if_neg hd]
      cases getDevicePathBySerialID (stat i) vid with
      | statError => refine ⟨?_, ?_, ?_⟩ <;> simp
      | found p => refine ⟨?_, ?_, ?_⟩ <;> simp
      | notFound =>
        by_cases hf : fuel = 0
        · rw [if_pos hf]
          refine ⟨?_, ?_, ?_⟩ <;> simp
        · rw [if_neg hf]
          have := ih (i + 1)
          refine ⟨?_, ?_, ?_⟩ <;> simp <;> omega

/-- The cost trace of `GetDevicePath` is exactly that of its backoff
loop: the post-processing of the loop result adds no attempt. -/
theorem getDevicePath_trace (stat : Nat → String → StatResult)
    (done : Nat → Bool) (env : Nat → ProbeEnv) (vid : String) :
    (GetDevicePath stat done env vid).2 =
      (backoffLoop stat done env vid backoffSteps 0).2 := by
  unfold GetDevicePath
  rcases hpair : backoffLoop stat done env vid backoffSteps 0 with ⟨r, t⟩
  cases r with
  | ok p =>
    simp only
    by_cases hp : p = ""
    · rw [if_pos hp]
    · rw [if_neg hp]
  | condErr => rfl
  | ctxCancelled => rfl
  | timeout => rfl

/-- C6: the resolution loop is bounded — for every filesystem behavior,
cancellation behavior and input, a `GetDevicePath` call performs at
most 15 lookup attempts (and so at most 15 rescans and 14 sleeps)
before terminating. -/
theorem getDevicePath_bounded (stat : Nat → String → StatResult)
    (done : Nat → Bool) (env : Nat → ProbeEnv) (vid : String) :
    (GetDevicePath stat done env vid).2.conds ≤ 15 ∧
    (GetDevicePath stat done env vid).2.probes ≤ 15 ∧
    (GetDevicePath stat done env vid).2.sleeps ≤ 14 := by
  rw [getDevicePath_trace]
  have := backoffLoop_trace_le stat done env vid backoffSteps 0
  exact ⟨this.1, this.2.1, this.2.2⟩

/-- When no candidate has a hard stat error and at least one exists,
the lookup finds a path whose stat succeeded. -/
theorem lookup_found_of_exists (stat : String → StatResult) (vid : String)
    (hex : ∃ pfx ∈ sourcePathPrefixes,
      stat (candidate pfx (diskUUIDToSerial vid)) = .ok)
    (hne : ∀ pfx ∈ sourcePathPrefixes,
      stat (candidate pfx (diskUUIDToSerial vid)) ≠ .otherError) :
    ∃ pfx ∈ sourcePathPrefixes,
      stat (candidate pfx (diskUUIDToSerial vid)) = .ok ∧
      getDevicePathBySerialID stat vid =
        .found (candidate pfx (diskUUIDToSerial vid)) := by
  have hpr := lookup_priority_cases stat vid
  cases h0 : stat (candidate "virtio-" (diskUUIDToSerial vid)) with
  | ok => exact ⟨"virtio-", by simp [sourcePathPrefixes], h0, hpr.1 h0⟩
  | otherError =>
    exact absurd h0 (hne "virtio-" (by simp [sourcePathPrefixes]))
  | notExist =>
    cases h1 : stat (candidate "scsi-" (diskUUIDToSerial vid)) with
    | ok => exact ⟨"scsi-", by simp [sourcePathPrefixes], h1, hpr.2.1 h0 h1⟩
    | otherError =>
      exact absurd h1 (hne "scsi-" (by simp [sourcePathPrefixes]))
    | notExist =>
      cases h2 : stat (candidate "scsi-0QEMU_QEMU_HARDDISK_"
          (diskUUIDToSerial vid)) with
      | ok =>
        exact ⟨"scsi-0QEMU_QEMU_HARDDISK_", by simp [sourcePathPrefixes],
          h2, hpr.2.2 h0 h1 h2⟩
      | otherError =>
        exact absurd h2
          (hne "scsi-0QEMU_QEMU_HARDDISK_" (by simp [sourcePathPrefixes]))
      | notExist =>
        obtain ⟨pfx, hm, hok⟩ := hex
        simp only [sourcePathPrefixes, List.mem_cons, List.mem_singleton,
          List.not_mem_nil, or_false] at hm
        rcases hm with rfl | rfl | rfl
        · rw [h0] at hok; cases hok
        · rw [h1] at hok; cases hok
        · rw [h2] at hok; cases hok

/-- C7: if one of the three candidate paths already exists at the first
check (on a live context whose stats report existence or absence),
`GetDevicePath` returns that path at once: a single lookup, no
`probeVolume` rescan and no backoff sleep. -/
theorem getDevicePath_immediate (stat : Nat → String → StatResult)
    (done : Nat → Bool) (env : Nat → ProbeEnv) (vid : String)
    (hd : done 0 = false)
    (hex : ∃ pfx ∈ sourcePathPrefixes,
      stat 0 (candidate pfx (diskUUIDToSerial vid)) = .ok)
    (hne : ∀ pfx ∈ sourcePathPrefixes,
      stat 0 (candidate pfx (diskUUIDToSerial vid)) ≠ .otherError) :
    ∃ p, stat 0 p = .ok ∧
      GetDevicePath stat done env vid = ((p, none), ⟨1, 0, 0, []⟩) := by
  obtain ⟨pfx, hm, hok, hfound⟩ := lookup_found_of_exists (stat 0) vid hex hne
  refine ⟨candidate pfx (diskUUIDToSerial vid), hok, ?_⟩
  unfold GetDevicePath
  rw [show backoffSteps = 14 + 1 from rfl,
    backoffLoop_found stat done env vid 14 0 _ hd hfound]
  simp [candidate_ne_empty]

/-- Witness for C7: every path exists and the context is live; the
resolver returns a verified path with a trace of one lookup, zero
rescans and zero sleeps. -/
theorem getDevicePath_immediate_witness :
    ∃ p, allOkStat 0 p = .ok ∧
      GetDevicePath allOkStat neverDone quietProbeEnv "vol" =
        ((p, none), ⟨1, 0, 0, []⟩) :=
  getDevicePath_immediate allOkStat neverDone quietProbeEnv "vol" rfl
    (by decide) (by decide)

/-- The loop result and attempt counts do not depend on the rescan
environment; only the log lines can differ. -/
theorem backoffLoop_env_irrelevant (stat : Nat → String → StatResult)
    (done : Nat → Bool) (vid : String) (env1 env2 : Nat → ProbeEnv) :
    ∀ fuel i,
      (backoffLoop stat done env1 vid fuel i).1 =
        (backoffLoop stat done env2 vid fuel i).1 ∧
      (backoffLoop stat done env1 vid fuel i).2.conds =
        (backoffLoop stat done env2 vid fuel i).2.conds ∧
      (backoffLoop stat done env1 vid fuel i).2.probes =
        (backoffLoop stat done env2 vid fuel i).2.probes ∧
      (backoffLoop stat done env1 vid fuel i).2.sleeps =
        (backoffLoop stat done env2 vid fuel i).2.sleeps := by
  intro fuel
  induction fuel with
  | zero => intro i; rw [backoffLoop_zero, backoffLoop_zero]; simp
  | succ fuel ih =>
    intro i
    rw [backoffLoop_succ, backoffLoop_succ]
    by_cases hd : done i
    · rw [if_pos hd, if_pos hd]; simp
    · rw [if_neg hd, if_neg hd]
      cases getDevicePathBySerialID (stat i) vid with
      | statError => simp
      | found p => simp
      | notFound =>
        by_cases hf : fuel = 0
        · rw [if_pos hf, if_pos hf]; simp
        · rw [if_neg hf, if_neg hf]
          have := ih (i + 1)
          simp only
          exact ⟨this.1, by omega, by omega, by omega⟩

/-- C8: `probeVolume` never propagates an error into the resolution —
it returns normally for every combination of directory-read, scan-write
and `udevadm` failures, and the result of `GetDevicePath` (returned
path, error class, and numbers of lookups, rescans and sleeps) is the
same under any two rescan environments, however they fail. -/
theorem probeVolume_failures_harmless (stat : Nat → String → StatResult)
    (done : Nat → Bool) (vid : String) (env1 env2 : Nat → ProbeEnv) :
    (GetDevicePath stat done env1 vid).1 =
      (GetDevicePath stat done env2 vid).1 ∧
    (GetDevicePath stat done env1 vid).2.conds =
      (GetDevicePath stat done env2 vid).2.conds ∧
    (GetDevicePath stat done env1 vid).2.probes =
      (GetDevicePath stat done env2 vid).2.probes ∧
    (GetDevicePath stat done env1 vid).2.sleeps =
      (GetDevicePath stat done env2 vid).2.sleeps := by
  have hloop := backoffLoop_env_irrelevant stat done vid env1 env2
    backoffSteps 0
  have ht1 := getDevicePath_trace stat done env1 vid
  have ht2 := getDevicePath_trace stat done env2 vid
  refine ⟨?_, ?_, ?_, ?_⟩
  · unfold GetDevicePath
    rcases hp1 : backoffLoop stat done env1 vid backoffSteps 0 with ⟨r1, t1⟩
    rcases hp2 : backoffLoop stat done env2 vid backoffSteps 0 with ⟨r2, t2⟩
    rw [hp1, hp2] at hloop
    simp only at hloop
    obtain ⟨hr, -, -, -⟩ := hloop
    subst hr
    cases r1 with
    | ok p =>
      simp only
      by_cases hp : p = ""
      · rw [if_pos hp, if_pos hp]
      · rw [if_neg hp, if_neg hp]
    | condErr => rfl
    | ctxCancelled => rfl
    | timeout => rfl
  · rw [ht1, ht2]; exact hloop.2.1
  · rw [ht1, ht2]; exact hloop.2.2.1
  · rw [ht1, ht2]; exact hloop.2.2.2

end CloudstackMount
